import Mathlib

set_option maxRecDepth 10000

/-!
  Verification of the color-palette engine of the `pigment` repository.

  The development shallowly embeds the TypeScript sources:
  * `src/utils/colorRules.ts` — `hexToRgb`, `rgbToHex`, HSL conversion helpers;
  * `src/utils/colors/colorValidation.ts` (first variant) — luminance, contrast,
    `validatePalette`, `adjustColorForContrast`, `fixPaletteAccessibility`;
  * `src/utils/colors/colorGeneration.ts` — `generateHarmonizedPalette` and its
    helpers;
  * the prompt parser `parseColorPrompt` (with its theme tables).

  JavaScript `number` arithmetic is idealized as exact arithmetic: channel
  computations are carried out in `ℚ` and the gamma-corrected luminance in `ℝ`
  (the exponent 2.4 via `Real.rpow`).  `Math.round` is floor(x + 1/2), and the
  `toFixed(2)` display rounding is modelled explicitly.
-/

namespace Pigment

/-- RGB record as returned by `hexToRgb` (each channel parses two hex digits,
hence lies in 0..255). -/
structure RGB where
  r : ℕ
  g : ℕ
  b : ℕ
deriving DecidableEq, Repr

/-- The seven-slot palette from `types.ts` / `colorRules.ts`. -/
structure ColorPalette where
  background : String
  secondaryBg : String
  secondary : String
  primary : String
  text : String
  accent : String
  transparent : String
deriving DecidableEq, Repr

/-- Value of one hex digit under the case-insensitive class `[a-f\d]` /
`[0-9A-Fa-f]` (code points: `0`-`9` are 48-57, `a`-`f` 97-102, `A`-`F` 65-70). -/
def hexDigitVal (c : Char) : Option ℕ :=
  if 48 ≤ c.toNat ∧ c.toNat ≤ 57 then some (c.toNat - 48)
  else if 97 ≤ c.toNat ∧ c.toNat ≤ 102 then some (c.toNat - 87)
  else if 65 ≤ c.toNat ∧ c.toNat ≤ 70 then some (c.toNat - 55)
  else none

/-- Parse six hex digits into an RGB record (`parseInt(pair, 16)` per pair). -/
def parseHex6 : List Char → Option RGB
  | [c1, c2, c3, c4, c5, c6] =>
    match hexDigitVal c1, hexDigitVal c2, hexDigitVal c3,
          hexDigitVal c4, hexDigitVal c5, hexDigitVal c6 with
    | some v1, some v2, some v3, some v4, some v5, some v6 =>
      some ⟨16 * v1 + v2, 16 * v3 + v4, 16 * v5 + v6⟩
    | _, _, _, _, _, _ => none
  | _ => none

/-- `hexToRgb` from `colorRules.ts`: the regex
`/^#?([a-f\d]{2})([a-f\d]{2})([a-f\d]{2})$/i`, i.e. an optional leading `#`
followed by exactly six case-insensitive hex digits; `null` otherwise. -/
def hexToRgb (hex : String) : Option RGB :=
  match hex.data with
  | '#' :: rest => parseHex6 rest
  | l => parseHex6 l

/-- Lowercase hex digit character, as produced by `Number.toString(16)`. -/
def hexDigitChar (n : ℕ) : Char :=
  if n < 10 then Char.ofNat (48 + n) else Char.ofNat (87 + n)

/-- Six lowercase hex digits of `n < 16^6`, most significant first.  For byte
channels this is exactly `((1 << 24) + (r << 16) + (g << 8) + b).toString(16).slice(1)`:
the leading `1` guarantees seven digits and `slice(1)` drops it, leaving the
six zero-padded digits of the low 24 bits. -/
def hex6 (n : ℕ) : List Char :=
  [hexDigitChar (n / 1048576 % 16), hexDigitChar (n / 65536 % 16),
   hexDigitChar (n / 4096 % 16), hexDigitChar (n / 256 % 16),
   hexDigitChar (n / 16 % 16), hexDigitChar (n % 16)]

/-- `rgbToHex` from `colorRules.ts`:
`` `#${((1 << 24) + (r << 16) + (g << 8) + b).toString(16).slice(1)}` ``. -/
def rgbToHex (r g b : ℕ) : String :=
  ⟨'#' :: hex6 (r * 65536 + g * 256 + b)⟩

/-- JavaScript `Math.round`: round half toward +∞. -/
def jsRound (q : ℚ) : ℤ := ⌊q + 1 / 2⌋

/-- `Math.min(255, Math.max(0, x))` producing a byte. -/
def clampByte (x : ℤ) : ℕ := (max 0 (min 255 x)).toNat

/-- `createLightColor` from `colorGeneration.ts`: mix each channel with white. -/
def createLightColor (rgb : RGB) (factor : ℚ) : String :=
  rgbToHex (jsRound ((rgb.r : ℚ) + (255 - (rgb.r : ℚ)) * factor)).toNat
    (jsRound ((rgb.g : ℚ) + (255 - (rgb.g : ℚ)) * factor)).toNat
    (jsRound ((rgb.b : ℚ) + (255 - (rgb.b : ℚ)) * factor)).toNat

/-- `createDarkColor` from `colorGeneration.ts`: mix each channel with black. -/
def createDarkColor (rgb : RGB) (factor : ℚ) : String :=
  rgbToHex (jsRound ((rgb.r : ℚ) * factor)).toNat
    (jsRound ((rgb.g : ℚ) * factor)).toNat
    (jsRound ((rgb.b : ℚ) * factor)).toNat

/-- `createNeutralDarkColor` from `colorGeneration.ts`. -/
def createNeutralDarkColor (baseRgb : RGB) : String :=
  let avg : ℚ := ((baseRgb.r : ℚ) + baseRgb.g + baseRgb.b) / 3
  let r := max 20 (jsRound ((baseRgb.r : ℚ) * 0.2 + avg * 0.1))
  let g := max 20 (jsRound ((baseRgb.g : ℚ) * 0.2 + avg * 0.1))
  let b := max 20 (jsRound ((baseRgb.b : ℚ) * 0.2 + avg * 0.1))
  rgbToHex r.toNat g.toNat b.toNat

/-- HSL triple (hue in degrees, saturation/lightness as percentages). -/
structure HSL where
  h : ℚ
  s : ℚ
  l : ℚ
deriving DecidableEq, Repr

/-- `rgbToHsl` from `colorRules.ts` (the `switch (max)` tries `case r`,
`case g`, `case b` in that order). -/
def rgbToHsl (r g b : ℕ) : HSL :=
  let r' : ℚ := r / 255
  let g' : ℚ := g / 255
  let b' : ℚ := b / 255
  let maxC := max r' (max g' b')
  let minC := min r' (min g' b')
  let l := (maxC + minC) / 2
  if maxC = minC then ⟨0, 0, l * 100⟩
  else
    let d := maxC - minC
    let s := if l > 1 / 2 then d / (2 - maxC - minC) else d / (maxC + minC)
    let h :=
      if maxC = r' then (g' - b') / d + (if g' < b' then 6 else 0)
      else if maxC = g' then (b' - r') / d + 2
      else (r' - g') / d + 4
    ⟨h * 60, s * 100, l * 100⟩

/-- JavaScript `%` for the nonnegative operands used here. -/
def jsModQ (a b : ℚ) : ℚ := a - b * ⌊a / b⌋

/-- `hslToRgb` from `colorRules.ts`. -/
def hslToRgb (h s l : ℚ) : RGB :=
  let s' := s / 100
  let l' := l / 100
  let c := (1 - |2 * l' - 1|) * s'
  let x := c * (1 - |jsModQ (h / 60) 2 - 1|)
  let m := l' - c / 2
  let rgb' : ℚ × ℚ × ℚ :=
    if 0 ≤ h ∧ h < 60 then (c, x, 0)
    else if 60 ≤ h ∧ h < 120 then (x, c, 0)
    else if 120 ≤ h ∧ h < 180 then (0, c, x)
    else if 180 ≤ h ∧ h < 240 then (0, x, c)
    else if 240 ≤ h ∧ h < 300 then (x, 0, c)
    else if 300 ≤ h ∧ h < 360 then (c, 0, x)
    else (0, 0, 0)
  ⟨(jsRound ((rgb'.1 + m) * 255)).toNat,
   (jsRound ((rgb'.2.1 + m) * 255)).toNat,
   (jsRound ((rgb'.2.2 + m) * 255)).toNat⟩

/-- `createAccentColor` from `colorGeneration.ts`: hue + 180°, saturation + 15
(capped at 100), lightness clamped into `[45, 65]` after a +10 shift. -/
def createAccentColor (baseColor : String) : String :=
  match hexToRgb baseColor with
  | none => "#467FF7"
  | some rgb =>
    let hsl := rgbToHsl rgb.r rgb.g rgb.b
    let newHue := jsModQ (hsl.h + 180) 360
    let newSat := min 100 (hsl.s + 15)
    let newLight := min (max 45 (hsl.l + 10)) 65
    let newRgb := hslToRgb newHue newSat newLight
    rgbToHex newRgb.r newRgb.g newRgb.b

/-- `adjustBrightness` from `colorRules.ts`: blend toward white for positive
percent, toward black for nonpositive percent, then round and clamp. -/
def adjustBrightness (hex : String) (percent : ℚ) : String :=
  match hexToRgb hex with
  | none => hex
  | some rgb =>
    let factor := percent / 100
    let r : ℚ :=
      if factor > 0 then (rgb.r : ℚ) + (255 - (rgb.r : ℚ)) * factor
      else (rgb.r : ℚ) * (1 + factor)
    let g : ℚ :=
      if factor > 0 then (rgb.g : ℚ) + (255 - (rgb.g : ℚ)) * factor
      else (rgb.g : ℚ) * (1 + factor)
    let b : ℚ :=
      if factor > 0 then (rgb.b : ℚ) + (255 - (rgb.b : ℚ)) * factor
      else (rgb.b : ℚ) * (1 + factor)
    rgbToHex (clampByte (jsRound r)) (clampByte (jsRound g)) (clampByte (jsRound b))

/-! ### Luminance and contrast (`colorValidation.ts`)

JavaScript floating-point arithmetic is idealized as real arithmetic;
`Math.pow(x, 2.4)` becomes `Real.rpow`. -/

/-- One channel of `calculateLuminance`: `c/12.92` when `c ≤ 0.03928`, else
`((c + 0.055) / 1.055) ^ 2.4`, on the normalized channel `c = v / 255`. -/
noncomputable def channelLum (v : ℕ) : ℝ :=
  if (v : ℝ) / 255 ≤ 0.03928 then ((v : ℝ) / 255) / 12.92
  else (((v : ℝ) / 255 + 0.055) / 1.055) ^ (2.4 : ℝ)

/-- `calculateLuminance` from `colorValidation.ts`; unparseable colors get
luminance 0. -/
noncomputable def calculateLuminance (color : String) : ℝ :=
  match hexToRgb color with
  | none => 0
  | some rgb =>
    0.2126 * channelLum rgb.r + 0.7152 * channelLum rgb.g + 0.0722 * channelLum rgb.b

/-- The raw WCAG contrast quotient `(max(L1,L2) + 0.05) / (min(L1,L2) + 0.05)`
shared by `checkContrast` and `getContrastRatio`. -/
noncomputable def contrastRatioValue (color1 color2 : String) : ℝ :=
  (max (calculateLuminance color1) (calculateLuminance color2) + 0.05) /
    (min (calculateLuminance color1) (calculateLuminance color2) + 0.05)

/-- `checkContrast` from `colorValidation.ts`: ratio at least 4.5 (WCAG AA). -/
def checkContrast (color1 color2 : String) : Prop :=
  contrastRatioValue color1 color2 ≥ 4.5

/-- `Number.prototype.toFixed(2)` read back as a number: the value rounded to
two decimal places (all values rounded here are nonnegative). -/
noncomputable def jsToFixed2 (x : ℝ) : ℝ := ⌊x * 100 + 1 / 2⌋ / 100

/-- `getContrastRatio` from `colorValidation.ts`: the raw quotient passed
through `.toFixed(2)` and coerced back to a number. -/
noncomputable def contrastRatioRounded (color1 color2 : String) : ℝ :=
  jsToFixed2 (contrastRatioValue color1 color2)

/-- `validatePalette` from `colorValidation.ts` (lines 37-60): `false` outright
unless the background is `"#FFFFFF"`, then the conjunction of the six contrast
checks (text/primary against both backgrounds, accent against the background,
and white text against `secondary`). -/
def validatePalette (palette : ColorPalette) : Prop :=
  palette.background = "#FFFFFF" ∧
  (checkContrast palette.background palette.text ∧
   checkContrast palette.secondaryBg palette.text ∧
   checkContrast palette.background palette.primary ∧
   checkContrast palette.secondaryBg palette.primary ∧
   checkContrast palette.background palette.accent ∧
   checkContrast palette.secondary "#FFFFFF")

/-! ### The contrast repair loop (`adjustColorForContrast`) -/

noncomputable section

open Classical in
/-- The `while (currentRatio < minContrastRatio && attempts < maxAttempts)`
loop of `adjustColorForContrast`: each iteration shifts all three channels by
`step` (clamped to a byte), reformats, and recomputes the displayed ratio.
`fuel` is `maxAttempts - attempts`. -/
noncomputable def adjustLoop (backgroundColor : String) (minContrastRatio : ℝ) (step : ℤ) :
    ℕ → ℕ → ℕ → ℕ → String → ℝ → String
  | 0, _, _, _, adjustedColor, _ => adjustedColor
  | Nat.succ fuel, r, g, b, adjustedColor, currentRatio =>
    if currentRatio < minContrastRatio then
      let r' := clampByte ((r : ℤ) + step)
      let g' := clampByte ((g : ℤ) + step)
      let b' := clampByte ((b : ℤ) + step)
      let next := rgbToHex r' g' b'
      adjustLoop backgroundColor minContrastRatio step fuel r' g' b' next
        (contrastRatioRounded next backgroundColor)
    else adjustedColor

open Classical in
/-- `adjustColorForContrast` from `colorValidation.ts` (lines 63-108): return
the color unchanged if either hex fails to parse or the displayed ratio
already meets the bound; otherwise darken (step -8) when the background
luminance exceeds 0.5, else lighten (step +8), for at most 30 attempts. -/
noncomputable def adjustColorForContrast (color backgroundColor : String)
    (minContrastRatio : ℝ) : String :=
  match hexToRgb color, hexToRgb backgroundColor with
  | some colorRgb, some _ =>
    if contrastRatioRounded color backgroundColor ≥ minContrastRatio then color
    else
      let step : ℤ := if calculateLuminance backgroundColor > 0.5 then -8 else 8
      adjustLoop backgroundColor minContrastRatio step 30 colorRgb.r colorRgb.g colorRgb.b
        color (contrastRatioRounded color backgroundColor)
  | _, _ => color

/-! Field-update helpers standing for the JavaScript assignments
`fixedPalette.text = ...` etc. on the copied record. -/

def setBackground (p : ColorPalette) (v : String) : ColorPalette :=
  ⟨v, p.secondaryBg, p.secondary, p.primary, p.text, p.accent, p.transparent⟩

def setSecondary (p : ColorPalette) (v : String) : ColorPalette :=
  ⟨p.background, p.secondaryBg, v, p.primary, p.text, p.accent, p.transparent⟩

def setPrimary (p : ColorPalette) (v : String) : ColorPalette :=
  ⟨p.background, p.secondaryBg, p.secondary, v, p.text, p.accent, p.transparent⟩

def setText (p : ColorPalette) (v : String) : ColorPalette :=
  ⟨p.background, p.secondaryBg, p.secondary, p.primary, v, p.accent, p.transparent⟩

def setAccent (p : ColorPalette) (v : String) : ColorPalette :=
  ⟨p.background, p.secondaryBg, p.secondary, p.primary, p.text, v, p.transparent⟩

open Classical in
/-- `fixPaletteAccessibility` from `colorValidation.ts` (lines 111-140),
statement by statement: force the background white, repair `text` and
`primary` against the (original) background and, if still failing, against
`secondaryBg`; repair `accent` against the background; darken a failing
`secondary` by adjusting white against it. -/
noncomputable def fixPaletteAccessibility (palette : ColorPalette) : ColorPalette :=
  let fixedPalette := palette
  let fixedPalette := setBackground fixedPalette "#FFFFFF"
  let fixedPalette := setText fixedPalette
    (adjustColorForContrast palette.text palette.background 4.5)
  let fixedPalette :=
    if ¬ checkContrast fixedPalette.text palette.secondaryBg then
      setText fixedPalette
        (adjustColorForContrast fixedPalette.text palette.secondaryBg 4.5)
    else fixedPalette
  let fixedPalette := setPrimary fixedPalette
    (adjustColorForContrast palette.primary palette.background 4.5)
  let fixedPalette :=
    if ¬ checkContrast fixedPalette.primary palette.secondaryBg then
      setPrimary fixedPalette
        (adjustColorForContrast fixedPalette.primary palette.secondaryBg 4.5)
    else fixedPalette
  let fixedPalette := setAccent fixedPalette
    (adjustColorForContrast palette.accent palette.background 4.5)
  let fixedPalette :=
    if ¬ checkContrast palette.secondary "#FFFFFF" then
      setSecondary fixedPalette
        (adjustColorForContrast "#FFFFFF" palette.secondary 4.5)
    else fixedPalette
  fixedPalette

open Classical in
/-- `ensureContrastRequirements` from `colorGeneration.ts` (lines 85-115): all
conditions read the ORIGINAL palette; assignments accumulate on the copy, so a
second write to the same slot overrides the first. -/
noncomputable def ensureContrastRequirements (palette : ColorPalette) : ColorPalette :=
  let result := palette
  let result :=
    if ¬ checkContrast palette.background palette.text then
      setText result "#2D3748"
    else result
  let result :=
    if ¬ checkContrast palette.secondaryBg palette.text then
      setText result (adjustBrightness palette.text (-20))
    else result
  let result :=
    if ¬ checkContrast palette.background palette.primary then
      setPrimary result (adjustBrightness palette.primary (-20))
    else result
  let result :=
    if ¬ checkContrast palette.secondaryBg palette.primary then
      setPrimary result (adjustBrightness palette.primary (-15))
    else result
  let result :=
    if ¬ checkContrast palette.background palette.accent then
      setAccent result (adjustBrightness palette.accent (-20))
    else result
  result

/-- `generateHarmonizedPalette` from `colorGeneration.ts` (lines 118-156).
Field order of `ColorPalette`: background, secondaryBg, secondary, primary,
text, accent, transparent. -/
noncomputable def generateHarmonizedPalette (baseColor : String) : ColorPalette :=
  let baseRgb := (hexToRgb baseColor).getD ⟨44, 82, 130⟩
  let palette : ColorPalette :=
    ⟨"#FFFFFF", createLightColor baseRgb 0.92, createDarkColor baseRgb 0.15,
     baseColor, createNeutralDarkColor baseRgb, createAccentColor baseColor,
     "#00000000"⟩
  ensureContrastRequirements palette

end

/-! ### The prompt interpreter (`parseColorPrompt` with its theme tables)

The regexes are alternations of literal words with the `i` flag (and `g` for
the scans); they are embedded as case-insensitive literal scans.  A scan
reports the canonical lowercase alternative, which is exactly the matched
substring passed through `.toLowerCase()` as the code does at each use site.
The module-level `allMentionedColors` scratch list is written but never read
on the paths modelled here, so it is omitted. -/

/-- `String.prototype.toLowerCase` on the ASCII text handled here. -/
def toLowerList (l : List Char) : List Char := l.map Char.toLower

/-- First alternative of `alts` matching at the head of `l`, case-insensitively
(JS alternation tries alternatives left to right). -/
def altAt (alts : List String) (l : List Char) : Option String :=
  alts.find? fun a => toLowerList (l.take a.length) == a.data

/-- All successive non-overlapping matches of the alternation, leftmost first
(a `/.../gi` scan); `fuel` bounds the number of loop steps by the text length. -/
def scanAlts (alts : List String) : ℕ → List Char → List String
  | 0, _ => []
  | _ + 1, [] => []
  | fuel + 1, c :: rest =>
    match altAt alts (c :: rest) with
    | some a => a :: scanAlts alts fuel ((c :: rest).drop a.length)
    | none => scanAlts alts fuel rest

/-- Whether the alternation matches anywhere (`prompt.match(...) !== null`). -/
def testAlts (alts : List String) : List Char → Bool
  | [] => (altAt alts []).isSome
  | c :: rest => (altAt alts (c :: rest)).isSome || testAlts alts rest

/-- JS `\w` class, for the `\b` boundary of the hex-literal regex. -/
def isWordChar (c : Char) : Bool := c.isAlpha || c.isDigit || c == '_'

/-- `\b` right after a match: end of text or a non-word character. -/
def boundaryAfter : List Char → Bool
  | [] => true
  | c :: _ => !isWordChar c

def isHexDigitChar (c : Char) : Bool := (hexDigitVal c).isSome

/-- One attempt of `/#([0-9A-Fa-f]{6}|[0-9A-Fa-f]{3})\b/` at the current
position: `#`, then six (preferred) or three hex digits, then a boundary.
Returns the matched characters and the remaining text. -/
def hexLitAt : List Char → Option (List Char × List Char)
  | '#' :: rest =>
    let d6 := rest.take 6
    if d6.length == 6 && d6.all isHexDigitChar && boundaryAfter (rest.drop 6) then
      some ('#' :: d6, rest.drop 6)
    else
      let d3 := rest.take 3
      if d3.length == 3 && d3.all isHexDigitChar && boundaryAfter (rest.drop 3) then
        some ('#' :: d3, rest.drop 3)
      else none
  | _ => none

/-- The global hex-literal scan (`prompt.match(/#(...)\b/g)`), returning the
matched substrings verbatim. -/
def scanHex : ℕ → List Char → List String
  | 0, _ => []
  | _ + 1, [] => []
  | fuel + 1, c :: rest =>
    match hexLitAt (c :: rest) with
    | some (m, after) => (⟨m⟩ : String) :: scanHex fuel after
    | none => scanHex fuel rest

def accentTriggerWords : List String := ["accent", "highlight", "button", "interactive"]

def accentLinkWords : List String := ["color", "tone", "shade"]

def accentVerbWords : List String := ["of", "as", "like", "should be"]

/-- The 40 color names of group 4 of the accent regex (the color-mention
vocabulary without the modifier words). -/
def colorNameWords : List String :=
  ["blue", "navy", "aqua", "turquoise", "teal", "cyan", "azure", "indigo", "red",
   "maroon", "crimson", "ruby", "scarlet", "green", "emerald", "lime", "olive",
   "mint", "purple", "violet", "lavender", "lilac", "magenta", "pink", "rose",
   "fuschia", "orange", "coral", "peach", "amber", "yellow", "gold", "brown",
   "tan", "beige", "sienna", "black", "white", "gray", "grey", "silver"]

/-- The tail `" (of|as|like|should be) (color)"` of the accent regex. -/
def accentTail (l : List Char) : Option String :=
  match l with
  | ' ' :: r =>
    match altAt accentVerbWords r with
    | some verb =>
      match r.drop verb.length with
      | ' ' :: r2 => altAt colorNameWords r2
      | _ => none
    | none => none
  | _ => none

/-- The accent regex
`/(accent|highlight|button|interactive) (color|tone|shade)? (of|as|like|should be) (...)/i`
tried at one position; the optional group backtracks to the empty string.
Returns the captured color name (lowercased, as the code does). -/
def accentAt (l : List Char) : Option String :=
  match altAt accentTriggerWords l with
  | none => none
  | some trig =>
    match l.drop trig.length with
    | ' ' :: r =>
      match altAt accentLinkWords r with
      | some link =>
        match accentTail (r.drop link.length) with
        | some name => some name
        | none => accentTail r
      | none => accentTail r
    | _ => none

/-- First position where the accent regex matches (`prompt.match`, no `g`). -/
def accentFind : List Char → Option String
  | [] => none
  | c :: rest =>
    match accentAt (c :: rest) with
    | some n => some n
    | none => accentFind rest

/-- A prompt theme: name, pattern alternatives, and primary color
(the companion-color lists only feed the unused scratch state). -/
structure Theme where
  name : String
  keywords : List String
  primary : String

/-- The ordered theme table of `parseTheme` (`old-?school` and `tie-?dye`
expand to their two literal spellings). -/
def themeTable : List Theme :=
  [⟨"forest", ["forest", "woodland", "jungle", "nature", "trees", "woods"], "#2D6A4F"⟩,
   ⟨"ocean", ["ocean", "sea", "marine", "beach", "coastal", "aquatic", "water"], "#1A73E8"⟩,
   ⟨"sunset", ["sunset", "dusk", "evening", "twilight"], "#FF7B00"⟩,
   ⟨"girly", ["girly", "feminine", "cute", "princess", "pink"], "#FF70E5"⟩,
   ⟨"monochrome", ["monochrome", "greyscale", "black and white", "b&w"], "#333333"⟩,
   ⟨"earthy", ["earthy", "earth", "soil", "clay", "terracotta", "natural", "organic"], "#6B705C"⟩,
   ⟨"autumn", ["autumn", "fall", "harvest", "leaves"], "#9C6644"⟩,
   ⟨"winter", ["winter", "snow", "ice", "cold", "frost", "freezing"], "#CAF0F8"⟩,
   ⟨"spring", ["spring", "bloom", "blossom", "floral", "flower"], "#95D5B2"⟩,
   ⟨"summer", ["summer", "sunny", "sunshine", "hot", "warm"], "#FFB703"⟩,
   ⟨"neon", ["neon", "glow", "glowing", "bright", "vibrant", "electric"], "#39FF14"⟩,
   ⟨"pastel", ["pastel", "soft", "gentle", "light"], "#FFD1DC"⟩,
   ⟨"retro", ["retro", "vintage", "old-school", "oldschool", "classic", "80s", "90s"], "#FFB347"⟩,
   ⟨"cyberpunk", ["cyberpunk", "cyber", "neon", "futurist", "tech"], "#F706CF"⟩,
   ⟨"hippie", ["hippie", "60s", "sixties", "psychedelic", "tie-dye", "tiedye", "bohemian", "boho"], "#FF6B35"⟩,
   ⟨"tropical", ["tropical", "caribbean", "island", "hawaii", "exotic"], "#FF9A3C"⟩,
   ⟨"minimalist", ["minimalist", "simple", "clean", "modern", "sleek", "minimal"], "#2F2F2F"⟩,
   ⟨"gothic", ["gothic", "dark", "goth", "vampire", "horror", "spooky", "halloween"], "#0C0032"⟩,
   ⟨"elegant", ["elegant", "classy", "luxury", "premium", "sophisticated", "upscale", "fancy"], "#2C3639"⟩,
   ⟨"space", ["space", "galaxy", "cosmic", "universe", "stars", "astronaut", "astronomy", "nebula"], "#2D3047"⟩,
   ⟨"western", ["western", "cowboy", "desert", "ranch", "wild west", "frontier"], "#A85751"⟩,
   ⟨"industrial", ["industrial", "factory", "machine", "metal", "steel", "iron", "mechanical"], "#393E46"⟩,
   ⟨"scandinavian", ["scandinavian", "nordic", "swedish", "danish", "norway"], "#FFFFFF"⟩,
   ⟨"japanese", ["japanese", "japan", "zen", "kimono", "sakura", "cherry blossom"], "#D9A0A0"⟩,
   ⟨"coffee", ["coffee", "espresso", "latte", "mocha", "cafe", "brown"], "#6F4E37"⟩,
   ⟨"wine", ["wine", "burgundy", "merlot", "grape", "vineyard"], "#722F37"⟩,
   ⟨"gaming", ["gaming", "gamer", "video games", "esports", "arcade"], "#121212"⟩,
   ⟨"christmas", ["christmas", "xmas", "santa", "holiday", "festive", "winter holiday"], "#D41E1E"⟩,
   ⟨"halloween", ["halloween", "spooky", "scary", "pumpkin", "october"], "#FF6700"⟩,
   ⟨"rainbow", ["rainbow", "multicolor", "colorful", "spectrum", "pride"], "#FF0000"⟩,
   ⟨"watermelon", ["watermelon", "summer fruit", "melon"], "#FF6B6B"⟩,
   ⟨"cotton candy", ["cotton candy", "fairy floss", "carnival", "fun fair"], "#FFB6C1"⟩,
   ⟨"nautical", ["nautical", "sailor", "navy", "maritime", "sailing", "boat"], "#003366"⟩]

/-- The contextual keyword fallback table (`contextualThemeMap`). -/
def contextualThemeTable : List (List String × String) :=
  [(["hippy", "hipster", "hippies", "60", "psychedelic", "tie dye"], "hippie"),
   (["sea", "blue", "water", "wave", "deep", "aqua"], "ocean"),
   (["tree", "green", "leaf", "plant", "nature"], "forest"),
   (["girl", "feminine", "woman", "lady", "princess"], "girly"),
   (["sun", "dawn", "dusk", "horizon", "orange sky"], "sunset"),
   (["dirt", "mud", "ground", "natural", "organic"], "earthy"),
   (["tech", "futuristic", "sci-fi", "neon", "digital"], "cyberpunk"),
   (["vintage", "old", "classic", "retro", "nostalgia"], "retro"),
   (["light", "soft", "pastel", "gentle", "baby"], "pastel"),
   (["bright", "glow", "vibrant", "intense", "flashy"], "neon")]

/-- `themes.find(t => t.name === name).primary`. -/
def themePrimary (name : String) : Option String :=
  (themeTable.find? fun t => t.name == name).map Theme.primary

/-- `parseTheme` from the prompt parser: the prompt is lowercased, then the
direct theme patterns are tried in order, then the contextual keyword table,
then the descriptive phrases. -/
def parseTheme (prompt : String) : Option String :=
  let lower := toLowerList prompt.data
  match themeTable.find? fun t => testAlts t.keywords lower with
  | some t => some t.primary
  | none =>
    match contextualThemeTable.find? fun cm => cm.1.any fun k => testAlts [k] lower with
    | some cm => themePrimary cm.2
    | none =>
      if testAlts ["like the beach"] lower || testAlts ["like the sea"] lower ||
          testAlts ["blue water"] lower then
        themePrimary "ocean"
      else if testAlts ["like a forest"] lower || testAlts ["green nature"] lower ||
          testAlts ["trees and"] lower then
        themePrimary "forest"
      else none

/-- The color-mention vocabulary of `parseColorPrompt` — the 40 color names
followed by the 8 modifier words, in regex order. -/
def colorMentionWords : List String :=
  colorNameWords ++ ["dark", "light", "bright", "pastel", "vibrant", "muted", "cool", "warm"]

/-- The modifier words excluded from `distinctColorNames`. -/
def modifierWords : List String :=
  ["dark", "light", "bright", "pastel", "vibrant", "muted", "cool", "warm"]

/-- The accent-only color map of the accent branch. -/
def accentColorMap : List (String × String) :=
  [("blue", "#467FF7"), ("navy", "#3B5998"), ("aqua", "#00D1B2"),
   ("turquoise", "#0DB4B9"), ("teal", "#20C997"), ("cyan", "#17A2B8"),
   ("azure", "#0078D7"), ("indigo", "#6610F2"), ("red", "#E53E3E"),
   ("maroon", "#85182A"), ("crimson", "#DC2626"), ("ruby", "#9B1C1C"),
   ("scarlet", "#E53E3E"), ("green", "#38A169"), ("emerald", "#059669"),
   ("lime", "#84CC16"), ("olive", "#3D9970"), ("mint", "#10B981"),
   ("purple", "#805AD5"), ("violet", "#7C3AED"), ("lavender", "#9F7AEA"),
   ("lilac", "#A78BFA"), ("magenta", "#D53F8C"), ("pink", "#EC4899"),
   ("rose", "#F43F5E"), ("fuschia", "#D946EF"), ("orange", "#ED8936"),
   ("coral", "#F97316"), ("peach", "#FDBA74"), ("amber", "#F59E0B"),
   ("yellow", "#ECC94B"), ("gold", "#D69E2E")]

/-- The main color map of `parseColorPrompt`. -/
def colorMap : List (String × String) :=
  [("blue", "#2B6CB0"), ("navy", "#1A365D"), ("aqua", "#00B5D8"),
   ("turquoise", "#0D9488"), ("teal", "#319795"), ("cyan", "#00A3C4"),
   ("azure", "#4299E1"), ("indigo", "#4C51BF"), ("red", "#C53030"),
   ("maroon", "#85182A"), ("crimson", "#DC2626"), ("ruby", "#9B1C1C"),
   ("scarlet", "#E53E3E"), ("green", "#2F855A"), ("emerald", "#047857"),
   ("lime", "#65A30D"), ("olive", "#5F9EA0"), ("mint", "#10B981"),
   ("purple", "#6B46C1"), ("violet", "#7C3AED"), ("lavender", "#8B5CF6"),
   ("lilac", "#A78BFA"), ("magenta", "#B83280"), ("pink", "#D53F8C"),
   ("rose", "#F43F5E"), ("fuschia", "#D946EF"), ("orange", "#DD6B20"),
   ("coral", "#F97316"), ("peach", "#FDBA74"), ("amber", "#F59E0B"),
   ("yellow", "#D69E2E"), ("gold", "#B7791F"), ("brown", "#8B4513"),
   ("tan", "#D2B48C"), ("beige", "#F5F5DC"), ("sienna", "#A0522D"),
   ("black", "#1A202C"), ("white", "#FFFFFF"), ("gray", "#718096"),
   ("grey", "#718096"), ("silver", "#CBD5E0")]

/-- `colorMap[key] || default`. -/
def lookupColor (m : List (String × String)) (k : String) (dflt : String) : String :=
  match m.find? fun p => p.1 == k with
  | some p => p.2
  | none => dflt

def darkWords : List String := ["dark", "deep", "rich", "midnight", "charcoal"]

def lightWords : List String := ["light", "pale", "soft", "pastel"]

def vibrantWords : List String := ["vibrant", "bright", "bold", "vivid", "intense", "saturated"]

def pastelWords : List String := ["pastel", "gentle", "subtle", "muted", "soft"]

def coolWords : List String := ["cool", "cold", "icy", "winter"]

def warmWords : List String := ["warm", "hot", "fiery", "summer"]

/-- The `isVibrant` saturation boost: channels above the average gain 30, the
rest lose 20, clamped to bytes. -/
def vibrantAdjust (hex : String) : String :=
  match hexToRgb hex with
  | none => hex
  | some rgb =>
    let avg : ℚ := ((rgb.r : ℚ) + rgb.g + rgb.b) / 3
    rgbToHex (clampByte (if (rgb.r : ℚ) > avg then (rgb.r : ℤ) + 30 else (rgb.r : ℤ) - 20))
      (clampByte (if (rgb.g : ℚ) > avg then (rgb.g : ℤ) + 30 else (rgb.g : ℤ) - 20))
      (clampByte (if (rgb.b : ℚ) > avg then (rgb.b : ℤ) + 30 else (rgb.b : ℤ) - 20))

/-- The `isPastel` blend toward white: `round(c * 0.6 + 255 * 0.4)`. -/
def pastelAdjust (hex : String) : String :=
  match hexToRgb hex with
  | none => hex
  | some rgb =>
    rgbToHex (jsRound ((rgb.r : ℚ) * 0.6 + 255 * 0.4)).toNat
      (jsRound ((rgb.g : ℚ) * 0.6 + 255 * 0.4)).toNat
      (jsRound ((rgb.b : ℚ) * 0.6 + 255 * 0.4)).toNat

/-- The `isCool` shift toward blue. -/
def coolAdjust (hex : String) : String :=
  match hexToRgb hex with
  | none => hex
  | some rgb =>
    rgbToHex (max 0 ((rgb.r : ℤ) - 20)).toNat rgb.g (min 255 (rgb.b + 20))

/-- The `isWarm` shift toward red/yellow. -/
def warmAdjust (hex : String) : String :=
  match hexToRgb hex with
  | none => hex
  | some rgb =>
    rgbToHex (min 255 (rgb.r + 20)) (min 255 (rgb.g + 10)) (max 0 ((rgb.b : ℤ) - 10)).toNat

/-- `parseColorPrompt` (the variant with theme support, `src/unnamed/part_004`):
hex literals first, then themes, then the color-mention scan (null when it
finds nothing), then the accent request, then named color plus modifiers. -/
def parseColorPrompt (prompt : String) : Option String :=
  match scanHex prompt.data.length prompt.data with
  | hexColor :: _ => some hexColor
  | [] =>
    match parseTheme prompt with
    | some themeColor => some themeColor
    | none =>
      match scanAlts colorMentionWords prompt.data.length prompt.data with
      | [] => none
      | colorMentions =>
        match accentFind prompt.data with
        | some accentName => some (lookupColor accentColorMap accentName "#467FF7")
        | none =>
          let distinctColorNames :=
            colorMentions.filter fun n => !(modifierWords.contains n)
          let baseColor := distinctColorNames.head?.getD "blue"
          let hexColor := lookupColor colorMap baseColor "#2B6CB0"
          let c := prompt.data
          let hex1 :=
            if testAlts darkWords c then adjustBrightness hexColor (-30)
            else if testAlts lightWords c then adjustBrightness hexColor 30
            else hexColor
          let hex2 :=
            if testAlts vibrantWords c then vibrantAdjust hex1
            else if testAlts pastelWords c then pastelAdjust hex1
            else hex1
          let hex3 :=
            if testAlts coolWords c then coolAdjust hex2
            else if testAlts warmWords c then warmAdjust hex2
            else hex2
          some hex3

/-! ### Claim-side predicates and concrete palettes used by the claims -/

/-- The inputs the spec says `hexToRgb` accepts (claim C6): exactly six
hexadecimal digits, with or without one leading `#`. -/
def validHexInput (s : String) : Prop :=
  ∃ core : List Char, (s.data = core ∨ s.data = '#' :: core) ∧
    core.length = 6 ∧ ∀ c ∈ core, isHexDigitChar c = true

/-- A lowercase hexadecimal digit (`0`-`9` or `a`-`f`), the alphabet
`Number.toString(16)` emits; used to state the amended round-trip claim C4. -/
def isLowerHexDigit (c : Char) : Bool :=
  decide ((48 ≤ c.toNat ∧ c.toNat ≤ 57) ∨ (97 ≤ c.toNat ∧ c.toNat ≤ 102))

/-- The validation condition exactly as claim C1 words it: white background and
the five slot/background pairs each with contrast ratio at least 4.5. -/
def paletteClaimedChecks (p : ColorPalette) : Prop :=
  p.background = "#FFFFFF" ∧
  contrastRatioValue p.text p.background ≥ 4.5 ∧
  contrastRatioValue p.text p.secondaryBg ≥ 4.5 ∧
  contrastRatioValue p.primary p.background ≥ 4.5 ∧
  contrastRatioValue p.primary p.secondaryBg ≥ 4.5 ∧
  contrastRatioValue p.accent p.background ≥ 4.5

/-- Black slots on white backgrounds: every contrast pair is at the maximum
ratio 21, so this palette passes every check. -/
def blackOnWhitePalette : ColorPalette :=
  ⟨"#FFFFFF", "#FFFFFF", "#000000", "#000000", "#000000", "#000000", "#00000000"⟩

/-- Like `blackOnWhitePalette` but with a white `secondary` slot: the five
claimed pairs still pass, while white text on `secondary` has ratio 1. -/
def whiteSecondaryPalette : ColorPalette :=
  ⟨"#FFFFFF", "#FFFFFF", "#FFFFFF", "#000000", "#000000", "#000000", "#00000000"⟩

example : hexToRgb "#2B6CB0" = some ⟨43, 108, 176⟩ := by decide
example : hexToRgb "2b6cb0" = some ⟨43, 108, 176⟩ := by decide
example : hexToRgb "#FFF" = none := by decide
example : rgbToHex 255 255 255 = "#ffffff" := by decide
example : parseColorPrompt "" = none := by decide
example : parseColorPrompt "muted" = some (pastelAdjust "#2B6CB0") := rfl
example : parseTheme "forest themed" = some "#2D6A4F" := by decide
example : parseColorPrompt "#FF70E5 girly theme" = some "#FF70E5" := by decide

/-! ## Helper lemmas -/

/-- Fifth power of `x ^ 2.4` is `x ^ 12` for nonnegative `x`. -/
lemma rpow24_pow5 (x : ℝ) (hx : 0 ≤ x) : (x ^ (2.4 : ℝ)) ^ (5 : ℕ) = x ^ (12 : ℕ) := by
  calc (x ^ (2.4 : ℝ)) ^ (5 : ℕ)
      = (x ^ (2.4 : ℝ)) ^ ((5 : ℕ) : ℝ) := (Real.rpow_natCast _ 5).symm
    _ = x ^ ((2.4 : ℝ) * 5) := (Real.rpow_mul hx _ _).symm
    _ = x ^ ((12 : ℕ) : ℝ) := by norm_num
    _ = x ^ (12 : ℕ) := Real.rpow_natCast x 12

/-- Reduce a lower bound on `x ^ 2.4` to a rational power comparison. -/
lemma le_rpow24 {x u : ℝ} (hx : 0 ≤ x) (hu : 0 ≤ u)
    (h : u ^ (5 : ℕ) ≤ x ^ (12 : ℕ)) : u ≤ x ^ (2.4 : ℝ) := by
  have h5 : u ^ (5 : ℕ) ≤ (x ^ (2.4 : ℝ)) ^ (5 : ℕ) := by rw [rpow24_pow5 x hx]; exact h
  exact (pow_le_pow_iff_left₀ hu (Real.rpow_nonneg hx _) (by norm_num)).mp h5

lemma channelLum_nonneg (v : ℕ) : 0 ≤ channelLum v := by
  unfold channelLum
  split_ifs
  · positivity
  · exact Real.rpow_nonneg (by positivity) _

lemma channelLum_le_one (v : ℕ) (hv : v ≤ 255) : channelLum v ≤ 1 := by
  have hv' : (v : ℝ) ≤ 255 := by exact_mod_cast hv
  unfold channelLum
  split_ifs with h
  · rw [div_le_one (by norm_num : (0 : ℝ) < 12.92)]
    linarith
  · have h0 : (0 : ℝ) ≤ ((v : ℝ) / 255 + 0.055) / 1.055 := by positivity
    have h1 : ((v : ℝ) / 255 + 0.055) / 1.055 ≤ 1 := by
      rw [div_le_one (by norm_num)]
      nlinarith
    exact Real.rpow_le_one h0 h1 (by norm_num)

/-- For `v ≥ 11` the gamma branch applies and the base is the exact rational
`(40v + 561) / 10761`. -/
lemma channelLum_eq_rpow (v : ℕ) (hv : 11 ≤ v) :
    channelLum v = (((40 * v + 561 : ℕ) : ℝ) / 10761) ^ (2.4 : ℝ) := by
  have hv' : (11 : ℝ) ≤ (v : ℝ) := by exact_mod_cast hv
  unfold channelLum
  rw [if_neg (by rw [not_le, lt_div_iff (by norm_num)]; nlinarith)]
  congr 1
  push_cast
  ring

/-- Rational lower bound on one gamma-corrected channel. -/
lemma channelLum_ge (v : ℕ) (hv : 11 ≤ v) (u : ℝ) (hu : 0 ≤ u)
    (h : u ^ (5 : ℕ) ≤ (((40 * v + 561 : ℕ) : ℝ) / 10761) ^ (12 : ℕ)) :
    u ≤ channelLum v := by
  rw [channelLum_eq_rpow v hv]
  exact le_rpow24 (by positivity) hu h

lemma channelLum_255 : channelLum 255 = 1 := by
  unfold channelLum
  rw [if_neg (by norm_num)]
  rw [show ((255 : ℕ) : ℝ) / 255 + 0.055 = 1.055 by norm_num]
  rw [show (1.055 : ℝ) / 1.055 = 1 by norm_num]
  exact Real.one_rpow _

lemma channelLum_0 : channelLum 0 = 0 := by
  unfold channelLum
  rw [if_pos (by norm_num)]
  norm_num

lemma calculateLuminance_nonneg (s : String) : 0 ≤ calculateLuminance s := by
  unfold calculateLuminance
  rcases h : hexToRgb s with _ | rgb
  · simp
  · have := channelLum_nonneg rgb.r
    have := channelLum_nonneg rgb.g
    have := channelLum_nonneg rgb.b
    simp only
    nlinarith

/-- The luminance weights sum to one, so byte channels keep it at most 1. -/
lemma lumSum_le_one {r g b : ℕ} (hr : r ≤ 255) (hg : g ≤ 255) (hb : b ≤ 255) :
    0.2126 * channelLum r + 0.7152 * channelLum g + 0.0722 * channelLum b ≤ 1 := by
  have h1 := channelLum_le_one r hr
  have h2 := channelLum_le_one g hg
  have h3 := channelLum_le_one b hb
  have := channelLum_nonneg r
  have := channelLum_nonneg g
  have := channelLum_nonneg b
  nlinarith

lemma lum_white_upper : calculateLuminance "#FFFFFF" = 1 := by
  unfold calculateLuminance
  rw [show hexToRgb "#FFFFFF" = some ⟨255, 255, 255⟩ from by decide]
  simp only [channelLum_255]
  norm_num

lemma lum_white_lower : calculateLuminance "#ffffff" = 1 := by
  unfold calculateLuminance
  rw [show hexToRgb "#ffffff" = some ⟨255, 255, 255⟩ from by decide]
  simp only [channelLum_255]
  norm_num

lemma lum_black : calculateLuminance "#000000" = 0 := by
  unfold calculateLuminance
  rw [show hexToRgb "#000000" = some ⟨0, 0, 0⟩ from by decide]
  simp only [channelLum_0]
  norm_num

lemma contrastRatioValue_comm (a b : String) :
    contrastRatioValue a b = contrastRatioValue b a := by
  unfold contrastRatioValue
  rw [max_comm, min_comm]

lemma checkContrast_comm {a b : String} : checkContrast a b ↔ checkContrast b a := by
  unfold checkContrast
  rw [contrastRatioValue_comm]

/-- Rounding to two decimals preserves the 4.5 threshold from above. -/
lemma jsToFixed2_ge_45 {x : ℝ} (h : 4.5 ≤ x) : 4.5 ≤ jsToFixed2 x := by
  unfold jsToFixed2
  have hf : (450 : ℤ) ≤ ⌊x * 100 + 1 / 2⌋ := Int.le_floor.mpr (by push_cast; linarith)
  have hc : ((450 : ℤ) : ℝ) ≤ (⌊x * 100 + 1 / 2⌋ : ℝ) := by exact_mod_cast hf
  rw [le_div_iff (by norm_num : (0 : ℝ) < 100)]
  push_cast at hc
  linarith

/-- A color already meeting the contrast requirement is returned unchanged by
the repair routine (the initial displayed ratio passes the entry test; and the
routine also returns its input when either hex fails to parse). -/
lemma adjustColorForContrast_id {c bg : String} (h : checkContrast c bg) :
    adjustColorForContrast c bg 4.5 = c := by
  unfold checkContrast at h
  unfold adjustColorForContrast
  rcases h1 : hexToRgb c with _ | rgb1 <;> rcases h2 : hexToRgb bg with _ | rgb2 <;>
    simp only
  rw [if_pos]
  exact le_trans (by norm_num) (jsToFixed2_ge_45 h)

/-- Against a pure-white luminance the raw ratio is `1.05 / (L + 0.05)`. -/
lemma contrastRatioValue_white {w s : String} (hw : calculateLuminance w = 1)
    (hs : calculateLuminance s ≤ 1) :
    contrastRatioValue w s = 1.05 / (calculateLuminance s + 0.05) := by
  unfold contrastRatioValue
  rw [hw, max_eq_left hs, min_eq_right hs]
  norm_num

/-- White-background AA check as a luminance threshold: `L ≤ 11/60`. -/
lemma checkContrast_white_iff {w s : String} (hw : calculateLuminance w = 1)
    (hs : calculateLuminance s ≤ 1) :
    checkContrast w s ↔ calculateLuminance s ≤ 11 / 60 := by
  unfold checkContrast
  rw [contrastRatioValue_white hw hs]
  have hpos : 0 < calculateLuminance s + 0.05 := by
    have := calculateLuminance_nonneg s
    linarith
  rw [ge_iff_le, le_div_iff hpos]
  constructor <;> intro <;> linarith

/-- Zero-luminance-background AA check as a threshold: `7/40 ≤ L`. -/
lemma checkContrast_black_iff {s b : String} (hb : calculateLuminance b = 0) :
    checkContrast s b ↔ 7 / 40 ≤ calculateLuminance s := by
  have hs := calculateLuminance_nonneg s
  unfold checkContrast contrastRatioValue
  rw [hb, max_eq_left hs, min_eq_right hs]
  rw [ge_iff_le, le_div_iff (by norm_num)]
  constructor <;> intro <;> linarith

lemma checkContrast_white_black : checkContrast "#FFFFFF" "#000000" := by
  rw [checkContrast_white_iff lum_white_upper (by rw [lum_black]; norm_num), lum_black]
  norm_num

lemma checkContrast_black_white : checkContrast "#000000" "#FFFFFF" :=
  checkContrast_comm.mp checkContrast_white_black

/-! Concrete luminance bounds for the colors appearing in the generator run on
base `#2B6CB0` and in the witnesses. -/

lemma lum_e2892c_le : calculateLuminance "#e2892c" ≤ 1 := by
  unfold calculateLuminance
  rw [show hexToRgb "#e2892c" = some ⟨226, 137, 44⟩ from by decide]
  exact lumSum_le_one (by norm_num) (by norm_num) (by norm_num)

lemma lum_e2892c_gt : 11 / 60 < calculateLuminance "#e2892c" := by
  unfold calculateLuminance
  rw [show hexToRgb "#e2892c" = some ⟨226, 137, 44⟩ from by decide]
  have h1 : (7 / 10 : ℝ) ≤ channelLum 226 :=
    channelLum_ge 226 (by norm_num) _ (by norm_num) (by norm_num)
  have h2 : (1 / 5 : ℝ) ≤ channelLum 137 :=
    channelLum_ge 137 (by norm_num) _ (by norm_num) (by norm_num)
  have h3 := channelLum_nonneg 44
  simp only
  linarith

lemma lum_b56e23_le : calculateLuminance "#b56e23" ≤ 1 := by
  unfold calculateLuminance
  rw [show hexToRgb "#b56e23" = some ⟨181, 110, 35⟩ from by decide]
  exact lumSum_le_one (by norm_num) (by norm_num) (by norm_num)

lemma lum_b56e23_gt : 11 / 60 < calculateLuminance "#b56e23" := by
  unfold calculateLuminance
  rw [show hexToRgb "#b56e23" = some ⟨181, 110, 35⟩ from by decide]
  have h1 : (23 / 50 : ℝ) ≤ channelLum 181 :=
    channelLum_ge 181 (by norm_num) _ (by norm_num) (by norm_num)
  have h2 : (31 / 200 : ℝ) ≤ channelLum 110 :=
    channelLum_ge 110 (by norm_num) _ (by norm_num) (by norm_num)
  have h3 : (167 / 10000 : ℝ) ≤ channelLum 35 :=
    channelLum_ge 35 (by norm_num) _ (by norm_num) (by norm_num)
  simp only
  linarith

lemma lum_ebebeb_ge : 7 / 40 ≤ calculateLuminance "#ebebeb" := by
  unfold calculateLuminance
  rw [show hexToRgb "#ebebeb" = some ⟨235, 235, 235⟩ from by decide]
  have h1 : (7 / 40 : ℝ) ≤ channelLum 235 :=
    channelLum_ge 235 (by norm_num) _ (by norm_num) (by norm_num)
  simp only
  linarith

lemma not_checkContrast_white_e2892c : ¬ checkContrast "#FFFFFF" "#e2892c" := by
  rw [checkContrast_white_iff lum_white_upper lum_e2892c_le]
  exact not_le.mpr lum_e2892c_gt

lemma not_checkContrast_white_b56e23 : ¬ checkContrast "#FFFFFF" "#b56e23" := by
  rw [checkContrast_white_iff lum_white_upper lum_b56e23_le]
  exact not_le.mpr lum_b56e23_gt

lemma not_checkContrast_white_white : ¬ checkContrast "#FFFFFF" "#FFFFFF" := by
  rw [checkContrast_white_iff lum_white_upper (le_of_eq lum_white_upper), lum_white_upper]
  norm_num

lemma not_checkContrast_lower_white : ¬ checkContrast "#ffffff" "#FFFFFF" := by
  rw [checkContrast_white_iff lum_white_lower (le_of_eq lum_white_upper), lum_white_upper]
  norm_num

lemma checkContrast_ebebeb_black : checkContrast "#ebebeb" "#000000" := by
  rw [checkContrast_black_iff lum_black]
  exact lum_ebebeb_ge

/-! Exact rational evaluations of the generator's color derivations. -/

lemma rgbToHsl_2B6CB0 : rgbToHsl 43 108 176 = ⟨28020 / 133, 13300 / 219, 730 / 17⟩ := by
  unfold rgbToHsl
  norm_num [max_def, min_def]

lemma hslToRgb_accent : hslToRgb (4080 / 133) (16585 / 219) (900 / 17) = ⟨226, 137, 44⟩ := by
  unfold hslToRgb jsModQ jsRound
  norm_num [abs, sup_eq_max, max_def, min_def]
  decide

lemma createAccentColor_2B6CB0 : createAccentColor "#2B6CB0" = "#e2892c" := by
  unfold createAccentColor
  rw [show hexToRgb "#2B6CB0" = some ⟨43, 108, 176⟩ from by decide]
  simp only [rgbToHsl_2B6CB0]
  rw [show jsModQ ((28020 / 133 : ℚ) + 180) 360 = 4080 / 133 from by
        unfold jsModQ; norm_num,
      show min (100 : ℚ) (13300 / 219 + 15) = 16585 / 219 from by
        rw [min_def]; norm_num,
      show min (max (45 : ℚ) (730 / 17 + 10)) 65 = 900 / 17 from by
        rw [max_def, min_def]; norm_num]
  rw [hslToRgb_accent]
  decide

lemma adjustBrightness_e2892c : adjustBrightness "#e2892c" (-20) = "#b56e23" := by
  unfold adjustBrightness
  rw [show hexToRgb "#e2892c" = some ⟨226, 137, 44⟩ from by decide]
  simp only
  norm_num [jsRound, clampByte, max_def, min_def]
  decide

lemma createLightColor_white : createLightColor ⟨255, 255, 255⟩ 0.92 = "#ffffff" := by
  unfold createLightColor jsRound
  norm_num
  decide

lemma createLightColor_black : createLightColor ⟨0, 0, 0⟩ 0.92 = "#ebebeb" := by
  unfold createLightColor jsRound
  norm_num
  decide

lemma adjustBrightness_white_15 : adjustBrightness "#FFFFFF" (-15) = "#d9d9d9" := by
  unfold adjustBrightness
  rw [show hexToRgb "#FFFFFF" = some ⟨255, 255, 255⟩ from by decide]
  simp only
  norm_num [jsRound, clampByte, max_def, min_def]
  decide

lemma pastelAdjust_2B6CB0 : pastelAdjust "#2B6CB0" = "#80a7d0" := by
  unfold pastelAdjust
  rw [show hexToRgb "#2B6CB0" = some ⟨43, 108, 176⟩ from by decide]
  simp only
  norm_num [jsRound]
  decide

/-! Slot-level views of the fixer and of `ensureContrastRequirements`. -/

lemma fix_background (p : ColorPalette) :
    (fixPaletteAccessibility p).background = "#FFFFFF" := by
  simp only [fixPaletteAccessibility, setBackground, setText, setPrimary, setAccent,
    setSecondary, apply_ite ColorPalette.background, ite_self]

lemma fix_secondaryBg (p : ColorPalette) :
    (fixPaletteAccessibility p).secondaryBg = p.secondaryBg := by
  simp only [fixPaletteAccessibility, setBackground, setText, setPrimary, setAccent,
    setSecondary, apply_ite ColorPalette.secondaryBg, ite_self]

lemma fix_transparent (p : ColorPalette) :
    (fixPaletteAccessibility p).transparent = p.transparent := by
  simp only [fixPaletteAccessibility, setBackground, setText, setPrimary, setAccent,
    setSecondary, apply_ite ColorPalette.transparent, ite_self]

lemma fix_secondary_of (p : ColorPalette) (h : checkContrast p.secondary "#FFFFFF") :
    (fixPaletteAccessibility p).secondary = p.secondary := by
  simp only [fixPaletteAccessibility, setBackground, setText, setPrimary, setAccent,
    setSecondary, apply_ite ColorPalette.secondary, ite_self]
  rw [if_neg (not_not_intro h)]

/-- A palette the validator accepts is a fixed point of the fixer: every
repair call sees a ratio already at or above 4.5 and returns its input. -/
lemma fix_of_valid (q : ColorPalette) (hv : validatePalette q) :
    fixPaletteAccessibility q = q := by
  obtain ⟨hbg, h1, h2, h3, h4, h5, h6⟩ := hv
  have htext : adjustColorForContrast q.text q.background 4.5 = q.text := by
    rw [hbg]
    exact adjustColorForContrast_id (checkContrast_comm.mp (hbg ▸ h1))
  have hprim : adjustColorForContrast q.primary q.background 4.5 = q.primary := by
    rw [hbg]
    exact adjustColorForContrast_id (checkContrast_comm.mp (hbg ▸ h3))
  have hacc : adjustColorForContrast q.accent q.background 4.5 = q.accent := by
    rw [hbg]
    exact adjustColorForContrast_id (checkContrast_comm.mp (hbg ▸ h5))
  simp only [fixPaletteAccessibility, setBackground, setText, setPrimary, setAccent,
    setSecondary]
  rw [htext, hprim, hacc]
  rw [if_neg (not_not_intro (checkContrast_comm.mp h2)),
    if_neg (not_not_intro (checkContrast_comm.mp h4)),
    if_neg (not_not_intro h6)]
  cases q
  simp_all

lemma ensure_background (p : ColorPalette) :
    (ensureContrastRequirements p).background = p.background := by
  simp only [ensureContrastRequirements, setText, setPrimary, setAccent,
    apply_ite ColorPalette.background, ite_self]

open Classical in
lemma ensure_accent (p : ColorPalette) :
    (ensureContrastRequirements p).accent =
      if ¬ checkContrast p.background p.accent then adjustBrightness p.accent (-20)
      else p.accent := by
  simp only [ensureContrastRequirements, setText, setPrimary, setAccent,
    apply_ite ColorPalette.accent, ite_self]

open Classical in
lemma ensure_primary (p : ColorPalette) :
    (ensureContrastRequirements p).primary =
      if ¬ checkContrast p.secondaryBg p.primary then adjustBrightness p.primary (-15)
      else if ¬ checkContrast p.background p.primary then adjustBrightness p.primary (-20)
      else p.primary := by
  simp only [ensureContrastRequirements, setText, setPrimary, setAccent,
    apply_ite ColorPalette.primary, ite_self]

/-! Hex parsing and formatting lemmas (claims C4 and C6). -/

/-- A lowercase hex digit parses to a value below 16 that `hexDigitChar` maps
back to the very same character. -/
lemma lowerHex_roundtrip {c : Char} (h : isLowerHexDigit c = true) :
    ∃ v, hexDigitVal c = some v ∧ v ≤ 15 ∧ hexDigitChar v = c := by
  have h' := of_decide_eq_true h
  rcases h' with ⟨ha, hb⟩ | ⟨ha, hb⟩
  · refine ⟨c.toNat - 48, ?_, by omega, ?_⟩
    · unfold hexDigitVal
      rw [if_pos ⟨ha, hb⟩]
    · unfold hexDigitChar
      rw [if_pos (by omega), show 48 + (c.toNat - 48) = c.toNat from by omega,
        Char.ofNat_toNat]
  · refine ⟨c.toNat - 87, ?_, by omega, ?_⟩
    · unfold hexDigitVal
      rw [if_neg (by omega), if_pos ⟨ha, hb⟩]
    · unfold hexDigitChar
      rw [if_neg (by omega), show 87 + (c.toNat - 87) = c.toNat from by omega,
        Char.ofNat_toNat]

/-- The six hex digits of a three-byte number recover the nibbles. -/
lemma hex6_bytes (v1 v2 v3 v4 v5 v6 : ℕ) (b1 : v1 ≤ 15) (b2 : v2 ≤ 15) (b3 : v3 ≤ 15)
    (b4 : v4 ≤ 15) (b5 : v5 ≤ 15) (b6 : v6 ≤ 15) :
    hex6 ((16 * v1 + v2) * 65536 + (16 * v3 + v4) * 256 + (16 * v5 + v6)) =
      [hexDigitChar v1, hexDigitChar v2, hexDigitChar v3, hexDigitChar v4,
       hexDigitChar v5, hexDigitChar v6] := by
  unfold hex6
  rw [show ((16 * v1 + v2) * 65536 + (16 * v3 + v4) * 256 + (16 * v5 + v6)) / 1048576 % 16
        = v1 from by omega,
    show ((16 * v1 + v2) * 65536 + (16 * v3 + v4) * 256 + (16 * v5 + v6)) / 65536 % 16
        = v2 from by omega,
    show ((16 * v1 + v2) * 65536 + (16 * v3 + v4) * 256 + (16 * v5 + v6)) / 4096 % 16
        = v3 from by omega,
    show ((16 * v1 + v2) * 65536 + (16 * v3 + v4) * 256 + (16 * v5 + v6)) / 256 % 16
        = v4 from by omega,
    show ((16 * v1 + v2) * 65536 + (16 * v3 + v4) * 256 + (16 * v5 + v6)) / 16 % 16
        = v5 from by omega,
    show ((16 * v1 + v2) * 65536 + (16 * v3 + v4) * 256 + (16 * v5 + v6)) % 16
        = v6 from by omega]

/-- `parseHex6` succeeds exactly on six case-insensitive hex digits. -/
lemma parseHex6_isSome (l : List Char) :
    (parseHex6 l).isSome = true ↔ l.length = 6 ∧ ∀ c ∈ l, isHexDigitChar c = true := by
  unfold parseHex6
  rcases l with _ | ⟨c1, _ | ⟨c2, _ | ⟨c3, _ | ⟨c4, _ | ⟨c5, _ | ⟨c6, _ | ⟨c7, t⟩⟩⟩⟩⟩⟩⟩ <;>
    simp_all [isHexDigitChar] <;> try omega
  rcases h1 : hexDigitVal c1 with _ | v1 <;> rcases h2 : hexDigitVal c2 with _ | v2 <;>
    rcases h3 : hexDigitVal c3 with _ | v3 <;> rcases h4 : hexDigitVal c4 with _ | v4 <;>
    rcases h5 : hexDigitVal c5 with _ | v5 <;> rcases h6 : hexDigitVal c6 with _ | v6 <;>
    simp_all

/-! Facts about the generator run on base `#2B6CB0`. -/

lemma gen_2B6CB0_background :
    (generateHarmonizedPalette "#2B6CB0").background = "#FFFFFF" := by
  unfold generateHarmonizedPalette
  rw [ensure_background]

lemma gen_2B6CB0_accent : (generateHarmonizedPalette "#2B6CB0").accent = "#b56e23" := by
  unfold generateHarmonizedPalette
  rw [ensure_accent]
  dsimp only
  rw [createAccentColor_2B6CB0, if_pos not_checkContrast_white_e2892c]
  exact adjustBrightness_e2892c

lemma gen_2B6CB0_invalid : ¬ validatePalette (generateHarmonizedPalette "#2B6CB0") := by
  intro hv
  obtain ⟨_, _, _, _, _, h5, _⟩ := hv
  rw [gen_2B6CB0_background, gen_2B6CB0_accent] at h5
  exact not_checkContrast_white_b56e23 h5

/-- `validatePalette` holds for the all-black-on-white palette. -/
lemma blackOnWhite_valid : validatePalette blackOnWhitePalette :=
  ⟨rfl, checkContrast_white_black, checkContrast_white_black, checkContrast_white_black,
   checkContrast_white_black, checkContrast_white_black, checkContrast_black_white⟩

lemma fix_blackOnWhite : fixPaletteAccessibility blackOnWhitePalette = blackOnWhitePalette :=
  fix_of_valid _ blackOnWhite_valid

lemma fix_blackOnWhite_valid : validatePalette (fixPaletteAccessibility blackOnWhitePalette) := by
  rw [fix_blackOnWhite]
  exact blackOnWhite_valid

/-! ## Claim theorems -/

/-- C1 (counterexample): a palette meeting the claim's five pairs and the white
background is still rejected by `validatePalette`, because of the additional
white-text-on-`secondary` check the claim omits. -/
theorem claim1_counterexample :
    paletteClaimedChecks whiteSecondaryPalette ∧ ¬ validatePalette whiteSecondaryPalette := by
  constructor
  · exact ⟨rfl, checkContrast_black_white, checkContrast_black_white,
      checkContrast_black_white, checkContrast_black_white, checkContrast_black_white⟩
  · intro hv
    exact not_checkContrast_white_white hv.2.2.2.2.2.2

/-- C1 (amended): `validatePalette p` is true iff the background is white, the
five claimed pairs reach ratio 4.5, and additionally white text on
`p.secondary` reaches ratio 4.5. -/
theorem claim1_validatePalette_iff (p : ColorPalette) :
    validatePalette p ↔
      paletteClaimedChecks p ∧ contrastRatioValue p.secondary "#FFFFFF" ≥ 4.5 := by
  unfold validatePalette paletteClaimedChecks checkContrast
  constructor
  · rintro ⟨h0, h1, h2, h3, h4, h5, h6⟩
    rw [contrastRatioValue_comm] at h1 h2 h3 h4 h5
    exact ⟨⟨h0, h1, h2, h3, h4, h5⟩, h6⟩
  · rintro ⟨⟨h0, h1, h2, h3, h4, h5⟩, h6⟩
    rw [contrastRatioValue_comm] at h1 h2 h3 h4 h5
    exact ⟨h0, h1, h2, h3, h4, h5, h6⟩

/-- C2: the repaired palette's background is always `"#FFFFFF"`, whatever the
input background was. -/
theorem claim2_fix_background_white (p : ColorPalette) :
    (fixPaletteAccessibility p).background = "#FFFFFF" :=
  fix_background p

/-- C3: whenever one application of the fixer yields a palette accepted by
`validatePalette`, a second application changes nothing. -/
theorem claim3_fix_idempotent (p : ColorPalette)
    (h : validatePalette (fixPaletteAccessibility p)) :
    fixPaletteAccessibility (fixPaletteAccessibility p) = fixPaletteAccessibility p :=
  fix_of_valid _ h

/-- C3 witness: the all-black-on-white palette satisfies the hypothesis, and
the conclusion holds there. -/
theorem claim3_witness :
    validatePalette (fixPaletteAccessibility blackOnWhitePalette) ∧
      fixPaletteAccessibility (fixPaletteAccessibility blackOnWhitePalette) =
        fixPaletteAccessibility blackOnWhitePalette :=
  ⟨fix_blackOnWhite_valid, claim3_fix_idempotent blackOnWhitePalette fix_blackOnWhite_valid⟩

/-- C4 (counterexample): the round trip is NOT the identity on every valid
6-digit hex string — formatting emits lowercase, so uppercase input changes. -/
theorem claim4_counterexample :
    (hexToRgb "#FFFFFF").map (fun rgb => rgbToHex rgb.r rgb.g rgb.b) = some "#ffffff" ∧
      ("#ffffff" : String) ≠ "#FFFFFF" := by
  decide

/-- C4 (amended): the round trip `rgbToHex ∘ hexToRgb` is the identity on
strings of the form `#` followed by six LOWERCASE hex digits (the exact
alphabet `toString(16)` emits; uppercase digits or a missing `#` break it). -/
theorem claim4_roundtrip (c1 c2 c3 c4 c5 c6 : Char)
    (h1 : isLowerHexDigit c1 = true) (h2 : isLowerHexDigit c2 = true)
    (h3 : isLowerHexDigit c3 = true) (h4 : isLowerHexDigit c4 = true)
    (h5 : isLowerHexDigit c5 = true) (h6 : isLowerHexDigit c6 = true) :
    (hexToRgb ⟨['#', c1, c2, c3, c4, c5, c6]⟩).map
        (fun rgb => rgbToHex rgb.r rgb.g rgb.b) =
      some ⟨['#', c1, c2, c3, c4, c5, c6]⟩ := by
  obtain ⟨v1, e1, b1, r1⟩ := lowerHex_roundtrip h1
  obtain ⟨v2, e2, b2, r2⟩ := lowerHex_roundtrip h2
  obtain ⟨v3, e3, b3, r3⟩ := lowerHex_roundtrip h3
  obtain ⟨v4, e4, b4, r4⟩ := lowerHex_roundtrip h4
  obtain ⟨v5, e5, b5, r5⟩ := lowerHex_roundtrip h5
  obtain ⟨v6, e6, b6, r6⟩ := lowerHex_roundtrip h6
  show (parseHex6 [c1, c2, c3, c4, c5, c6]).map (fun rgb => rgbToHex rgb.r rgb.g rgb.b) =
    some ⟨['#', c1, c2, c3, c4, c5, c6]⟩
  simp only [parseHex6, e1, e2, e3, e4, e5, e6, Option.map_some']
  unfold rgbToHex
  rw [hex6_bytes v1 v2 v3 v4 v5 v6 b1 b2 b3 b4 b5 b6, r1, r2, r3, r4, r5, r6]

/-- C4 witness: the round trip at the concrete string `#a1b2c3`. -/
theorem claim4_witness :
    isLowerHexDigit 'a' = true ∧
      (hexToRgb "#a1b2c3").map (fun rgb => rgbToHex rgb.r rgb.g rgb.b) = some "#a1b2c3" :=
  ⟨by decide,
   claim4_roundtrip 'a' '1' 'b' '2' 'c' '3' (by decide) (by decide) (by decide)
     (by decide) (by decide) (by decide)⟩

/-- C5: the displayed contrast ratio and the AA check are both symmetric in
their two color arguments. -/
theorem claim5_contrast_symmetric (a b : String) :
    contrastRatioRounded a b = contrastRatioRounded b a ∧
      (checkContrast a b ↔ checkContrast b a) := by
  constructor
  · unfold contrastRatioRounded
    rw [contrastRatioValue_comm]
  · exact checkContrast_comm

/-- C6: `hexToRgb` succeeds exactly on six case-insensitive hex digits with an
optional leading `#` (so 3-digit shorthand such as `#FFF` and every other
shape yield `null`). -/
theorem claim6_hexToRgb_domain (s : String) :
    (hexToRgb s).isSome = true ↔ validHexInput s := by
  unfold hexToRgb validHexInput
  split
  · rename_i rest heq
    rw [parseHex6_isSome]
    constructor
    · rintro ⟨h6, hall⟩
      exact ⟨rest, Or.inr heq, h6, hall⟩
    · rintro ⟨core, hcore | hcore, h6, hall⟩
      · rw [heq] at hcore
        subst hcore
        exact absurd (hall '#' (by simp)) (by decide)
      · rw [heq] at hcore
        injection hcore with _ hrest
        subst hrest
        exact ⟨h6, hall⟩
  · rename_i hns
    rw [parseHex6_isSome]
    constructor
    · rintro ⟨h6, hall⟩
      exact ⟨s.data, Or.inl rfl, h6, hall⟩
    · rintro ⟨core, hcore | hcore, h6, hall⟩
      · rw [hcore]
        exact ⟨h6, hall⟩
      · exact absurd hcore (by intro hc; exact hns core hc)

/-- C7 (counterexample): the prompt `"muted"` contains no hex literal, no
theme keyword, and no named color, yet `parseColorPrompt` returns a color
(the pastel-adjusted default blue), because the color-mention vocabulary also
contains the modifier word `muted`. -/
theorem claim7_counterexample : parseColorPrompt "muted" = some "#80a7d0" := by
  rw [show parseColorPrompt "muted" = some (pastelAdjust "#2B6CB0") from rfl,
    pastelAdjust_2B6CB0]

/-- C7 (amended): `parseColorPrompt` returns `null` exactly when the prompt
has no hex-literal match, no theme match (direct, contextual, or descriptive
phrase), and no occurrence of any token of the color-mention vocabulary — a
vocabulary that includes the modifier words dark, light, bright, pastel,
vibrant, muted, cool and warm besides the color names.  In particular the
empty prompt yields `null`. -/
theorem claim7_null_iff :
    (∀ prompt : String, parseColorPrompt prompt = none ↔
      scanHex prompt.data.length prompt.data = [] ∧ parseTheme prompt = none ∧
      scanAlts colorMentionWords prompt.data.length prompt.data = []) ∧
    parseColorPrompt "" = none := by
  constructor
  · intro prompt
    unfold parseColorPrompt
    rcases hh : scanHex prompt.data.length prompt.data with _ | ⟨h0, hs⟩
    · rcases ht : parseTheme prompt with _ | t
      · rcases hm : scanAlts colorMentionWords prompt.data.length prompt.data with _ | ⟨m, ms⟩
        · simp
        · rcases ha : accentFind prompt.data with _ | name <;> simp [ha]
      · simp
    · simp
  · decide

/-- C8 (counterexample): generating from base `"#FFFFFF"` does not keep the
primary slot equal to the base color — the contrast-repair pass darkens it. -/
theorem claim8_counterexample :
    (generateHarmonizedPalette "#FFFFFF").primary = "#d9d9d9" ∧
      ("#d9d9d9" : String) ≠ "#FFFFFF" := by
  constructor
  · unfold generateHarmonizedPalette
    rw [ensure_primary]
    dsimp only
    rw [show (hexToRgb "#FFFFFF").getD ⟨44, 82, 130⟩ = ⟨255, 255, 255⟩ from rfl,
      createLightColor_white,
      if_pos not_checkContrast_lower_white]
    exact adjustBrightness_white_15
  · decide

/-- C8 (amended): the generator returns the base color unchanged in the
`primary` slot whenever the base already has AA contrast against the white
background and against the derived secondary background; otherwise
`ensureContrastRequirements` darkens it. -/
theorem claim8_primary_unchanged (base : String)
    (h1 : checkContrast "#FFFFFF" base)
    (h2 : checkContrast (createLightColor ((hexToRgb base).getD ⟨44, 82, 130⟩) 0.92) base) :
    (generateHarmonizedPalette base).primary = base := by
  unfold generateHarmonizedPalette
  rw [ensure_primary]
  dsimp only
  rw [if_neg (not_not_intro h2), if_neg (not_not_intro h1)]

/-- C8 witness: base `"#000000"` passes both contrast conditions and survives
unchanged. -/
theorem claim8_witness :
    checkContrast "#FFFFFF" "#000000" ∧
      (generateHarmonizedPalette "#000000").primary = "#000000" := by
  have h2 : checkContrast (createLightColor ((hexToRgb "#000000").getD ⟨44, 82, 130⟩) 0.92)
      "#000000" := by
    rw [show (hexToRgb "#000000").getD ⟨44, 82, 130⟩ = ⟨0, 0, 0⟩ from rfl,
      createLightColor_black]
    exact checkContrast_ebebeb_black
  exact ⟨checkContrast_white_black,
    claim8_primary_unchanged "#000000" checkContrast_white_black h2⟩

/-- C9 (counterexample): the palette generated from base `#2B6CB0` does NOT
pass `validatePalette`. -/
theorem claim9_counterexample :
    ¬ validatePalette (generateHarmonizedPalette "#2B6CB0") :=
  gen_2B6CB0_invalid

/-- C9 (amended): generating from `#2B6CB0` yields accent `#b56e23` (the
complementary orange after the generator's own darkening step), which still
fails the AA check against the white background, so the palette fails
`validatePalette` instead of passing it. -/
theorem claim9_gen_2B6CB0_fails :
    (generateHarmonizedPalette "#2B6CB0").accent = "#b56e23" ∧
      ¬ checkContrast "#FFFFFF" (generateHarmonizedPalette "#2B6CB0").accent ∧
      ¬ validatePalette (generateHarmonizedPalette "#2B6CB0") := by
  refine ⟨gen_2B6CB0_accent, ?_, gen_2B6CB0_invalid⟩
  rw [gen_2B6CB0_accent]
  exact not_checkContrast_white_b56e23

/-- C10: the fixer returns `secondaryBg` and `transparent` verbatim, and
`secondary` is modified only when white text on it fails the 4.5 check. -/
theorem claim10_fix_frame (p : ColorPalette) :
    (fixPaletteAccessibility p).secondaryBg = p.secondaryBg ∧
      (fixPaletteAccessibility p).transparent = p.transparent ∧
      (checkContrast p.secondary "#FFFFFF" →
        (fixPaletteAccessibility p).secondary = p.secondary) :=
  ⟨fix_secondaryBg p, fix_transparent p, fix_secondary_of p⟩

/-- C10 witness at the all-black-on-white palette, whose `secondary` passes
the white-text check. -/
theorem claim10_witness :
    (fixPaletteAccessibility blackOnWhitePalette).secondaryBg =
        blackOnWhitePalette.secondaryBg ∧
      (fixPaletteAccessibility blackOnWhitePalette).transparent =
        blackOnWhitePalette.transparent ∧
      (fixPaletteAccessibility blackOnWhitePalette).secondary =
        blackOnWhitePalette.secondary :=
  ⟨(claim10_fix_frame blackOnWhitePalette).1,
   (claim10_fix_frame blackOnWhitePalette).2.1,
   (claim10_fix_frame blackOnWhitePalette).2.2 checkContrast_black_white⟩

end Pigment
